import Mathlib

/-!
Verification development for the Echoes Chrome extension's Recording
Session Coordinator and its storage collaborator.

The definitions below are shallow embeddings of the TypeScript source:
* `getParams`, `formatDuration`, `elapsedSeconds`, `startRecordingRun`,
  `stopRecording` embed the `Recorder` component (both recorder variants
  share this logic verbatim);
* `updateAudioLevels` embeds the level analyzer of the visualizing
  recorder variant;
* the `Node`/`graphEdges` development embeds the Web Audio connection
  graphs built for mode=both sessions;
* `Recording`, `getRecording`, `updateRecording`, `putRecord`,
  `handleProcessFail` embed `src/utils/storage.ts` and the failure path
  of `handleProcess` in `src/recordings/Recordings.tsx`.

JavaScript numbers are modelled as `Nat`/`Int` (all arithmetic involved
is on small non-negative integers except `parseInt`, which can produce a
negative number or NaN; NaN is modelled as `Option.none`).  Rational
numbers stand in for the floating-point audio levels: every operation
involved (`+`, `/`, `min`) is exact on the values that occur, so no
rounding is lost.
-/

namespace Echoes

/-! ### URL parameter parsing (`getParams` in Recorder.tsx) -/

/-- Accumulate decimal digits, stopping at the first non-digit. -/
def leadingDigitsAux (acc : Nat) : List Char → Nat
  | [] => acc
  | c :: cs =>
    if c.isDigit then leadingDigitsAux (acc * 10 + (c.toNat - '0'.toNat)) cs
    else acc

/-- Maximal leading decimal-digit run of a character list, `none` when the
first character is not a digit (JS `parseInt` returning NaN). -/
def leadingDigits : List Char → Option Nat
  | [] => none
  | c :: cs =>
    if c.isDigit then
      some (leadingDigitsAux (c.toNat - '0'.toNat) cs)
    else none

/-- JS `parseInt(s, 10)`: skip leading whitespace, optional sign, then a
maximal digit run; `none` models NaN. -/
def parseInt10 (s : String) : Option Int :=
  match s.data.dropWhile (·.isWhitespace) with
  | '-' :: rest => (leadingDigits rest).map (fun n => -(n : Int))
  | '+' :: rest => (leadingDigits rest).map (fun n => (n : Int))
  | l => (leadingDigits l).map (fun n => (n : Int))

/-- Session parameters as read from the URL.  The source casts the raw
string to its `CaptureMode` union without validating it, so `mode` stays a
string here. -/
structure RecorderParams where
  mode : String
  deviceId : String
  tabId : Int
  deriving DecidableEq, Repr

/-- The `tabId` computation of `getParams`:
`parseInt(params.get('tabId') || '0', 10)`, with `none` for NaN. -/
def parsedTabId (tabQ : Option String) : Option Int :=
  parseInt10 (match tabQ with
    | none => "0"
    | some s => if s = "" then "0" else s)

/-- `getParams` of Recorder.tsx.  Each argument is the raw value of the
query parameter (`none` when absent).  `!mode` is true for `null` and for
the empty string; `!tabId` is true for `0` and for NaN. -/
def getParams (modeQ deviceQ tabQ : Option String) : Option RecorderParams :=
  let mode := modeQ.getD ""
  let deviceId := deviceQ.getD ""
  let tabId := parsedTabId tabQ
  if mode = "" ∨ tabId = none ∨ tabId = some 0 then none
  else some ⟨mode, deviceId, tabId.getD 0⟩

/-! ### Duration display (`formatDuration`, duration effect) -/

/-- JS `n.toString().padStart(2, '0')` for a natural number. -/
def pad2 (n : Nat) : String :=
  let s := toString n
  if s.length < 2 then "0" ++ s else s

/-- `formatDuration` of Recorder.tsx (the identical copy in storage.ts is
the same function). -/
def formatDuration (seconds : Nat) : String :=
  let hrs := seconds / 3600
  let mins := (seconds % 3600) / 60
  let secs := seconds % 60
  if hrs > 0 then
    toString hrs ++ ":" ++ pad2 mins ++ ":" ++ pad2 secs
  else
    pad2 mins ++ ":" ++ pad2 secs

/-- The duration effect's tick body:
`Math.floor((Date.now() - startTimeRef.current) / 1000)` (times in
milliseconds). -/
def elapsedSeconds (now startedAt : Nat) : Nat :=
  (now - startedAt) / 1000

/-! ### Level analyzer (`updateAudioLevels` in the visualizing recorder) -/

/-- `NUM_BARS` of the visualizing recorder. -/
def NUM_BARS : Nat := 5

/-- Inner loop of `updateAudioLevels`: the sum of
`dataArray[start] + ... + dataArray[start+len-1]`. -/
def bandSum (data : List Nat) (start len : Nat) : Nat :=
  ((data.drop start).take len).sum

/-- JS `Math.min` on two (non-NaN) numbers. -/
def mathMin (a b : ℚ) : ℚ := if a ≤ b then a else b

/-- `updateAudioLevels` of the visualizing recorder, applied to one
frequency snapshot (a vector of byte magnitudes).  For each of the
`NUM_BARS` bars it averages a contiguous band of `⌊length/NUM_BARS⌋`
entries and clamps `avg / 180` at `1`. -/
def updateAudioLevels (data : List Nat) : List ℚ :=
  let step := data.length / NUM_BARS
  (List.range NUM_BARS).map (fun i =>
    let s := bandSum data (i * step) step
    let avg : ℚ := (s : ℚ) / (step : ℚ)
    mathMin 1 (avg / 180))

/-- The analyser's snapshot length: `frequencyBinCount = fftSize / 2` with
`analyser.fftSize = 256`. -/
def frequencyBinCount : Nat := 256 / 2

/-! ### Session status and the reachable session states

The `Recorder` component's state is `status ∈ {starting, recording,
stopped}` plus an optional `error` string.  `runSession` maps each code
path of the component (mount effect, `startRecording`'s `catch`, the
save handler inside `stopRecording`'s timeout) to the state it
produces. -/

inductive Status where
  | starting
  | recording
  | stopped
  deriving DecidableEq, Repr

structure SessState where
  status : Status
  error : Option String
  deriving DecidableEq, Repr

/-- Outcome of the acquisition phase of `startRecording` (resolution or
rejection of the awaited platform calls). -/
inductive StartOutcome where
  | ok
  | fail (msg : String)
  deriving DecidableEq, Repr

/-- What happens when (and if) the user stops: the saved path, a
`saveRecording` rejection, or an empty blob. -/
inductive StopOutcome where
  | saveOk
  | saveFail
  | empty
  deriving DecidableEq, Repr

/-- One complete scenario through the `Recorder` component. -/
structure Scenario where
  params : Option RecorderParams
  start : StartOutcome
  stop : Option StopOutcome
  deriving DecidableEq, Repr

/-- The session state at the end of a scenario, path by path:
* invalid params: the mount effect runs `setError('Invalid parameters')`
  and returns — `status` is left at its initial value `starting`;
* acquisition failure: `startRecording`'s catch sets the error and
  `status = stopped`;
* started, never stopped: `status = recording`, no error;
* stopped with non-empty blob and successful save: `stopped`, no error;
* stopped with empty blob: `stopped`, no error;
* stopped but `saveRecording` rejected: error `Failed to save recording`
  and `stopped`. -/
def runSession (sc : Scenario) : SessState :=
  match sc.params with
  | none => { status := .starting, error := some "Invalid parameters" }
  | some _ =>
    match sc.start with
    | .fail msg => { status := .stopped, error := some msg }
    | .ok =>
      match sc.stop with
      | none => { status := .recording, error := none }
      | some .saveOk => { status := .stopped, error := none }
      | some .empty => { status := .stopped, error := none }
      | some .saveFail => { status := .stopped, error := some "Failed to save recording" }

/-! ### Stream acquisition (`startRecording`)

`startRecordingRun` embeds the acquisition part of `startRecording`,
threading through which platform calls resolve.  It records which media
tracks are live afterwards, whether a microphone request was issued,
what stream feeds the `MediaRecorder`, and how monitoring/analysis are
wired.  The two recorder variants differ only in the analyser wiring,
which is included (`analyserTap`); the non-visualizing variant is this
model with that field ignored. -/

/-- Which stream object becomes `finalStream` (the encoder input). -/
inductive EncoderInput where
  | tabStream
  | micStream
  | mixedStream
  deriving DecidableEq, Repr

/-- Audio-graph nodes appearing in `startRecording`. -/
inductive Node where
  | tabSource
  | micSource
  | merger
  | destination
  | speaker
  | analyser
  deriving DecidableEq, Repr

/-- Result of one `startRecording` attempt. -/
structure StartResult where
  status : Status
  error : Option String
  /-- the tab stream's audio tracks are live -/
  tabAudioLive : Bool
  /-- the tab stream's video tracks are live -/
  tabVideoLive : Bool
  /-- the microphone stream's tracks are live -/
  micLive : Bool
  /-- a `getUserMedia` request for the microphone was issued -/
  micAttempted : Bool
  encoderInput : Option EncoderInput
  /-- a source node for the tab stream is connected to
  `audioContext.destination` (local speakers) -/
  speakerWiredFromTab : Bool
  /-- the node `setupAnalyser` connects to the analyser, if any -/
  analyserTap : Option Node
  deriving DecidableEq, Repr

/-- `startRecording params` given the outcomes of the tab-capture
acquisition and of the microphone `getUserMedia`.  Mirrors the source's
branches:
* mode `tab` or `both`: acquire the tab stream (failure is caught: error
  set, `status = stopped`, nothing live); on success stop its video
  tracks; then, only when mode is `both` AND `deviceId` is truthy,
  request the microphone (failure is caught with the tab stream's audio
  tracks still live — the catch stops nothing); on success build the
  mixing graph;
* otherwise (mode `both` with falsy deviceId falls into the tab-only
  branch): tab-only wiring;
* any other mode: microphone only. -/
def startRecordingRun (p : RecorderParams) (tabOut micOut : StartOutcome) :
    StartResult :=
  if p.mode = "tab" ∨ p.mode = "both" then
    match tabOut with
    | .fail msg =>
      { status := .stopped, error := some msg, tabAudioLive := false,
        tabVideoLive := false, micLive := false, micAttempted := false,
        encoderInput := none, speakerWiredFromTab := false, analyserTap := none }
    | .ok =>
      if p.mode = "both" ∧ p.deviceId ≠ "" then
        match micOut with
        | .fail msg =>
          { status := .stopped, error := some msg, tabAudioLive := true,
            tabVideoLive := false, micLive := false, micAttempted := true,
            encoderInput := none, speakerWiredFromTab := false, analyserTap := none }
        | .ok =>
          { status := .recording, error := none, tabAudioLive := true,
            tabVideoLive := false, micLive := true, micAttempted := true,
            encoderInput := some .mixedStream, speakerWiredFromTab := true,
            analyserTap := some .merger }
      else
        { status := .recording, error := none, tabAudioLive := true,
          tabVideoLive := false, micLive := false, micAttempted := false,
          encoderInput := some .tabStream, speakerWiredFromTab := true,
          analyserTap := some .tabSource }
  else
    match micOut with
    | .fail msg =>
      { status := .stopped, error := some msg, tabAudioLive := false,
        tabVideoLive := false, micLive := false, micAttempted := true,
        encoderInput := none, speakerWiredFromTab := false, analyserTap := none }
    | .ok =>
      { status := .recording, error := none, tabAudioLive := false,
        tabVideoLive := false, micLive := true, micAttempted := true,
        encoderInput := some .micStream, speakerWiredFromTab := false,
        analyserTap := some .micSource }

/-! ### The audio mixing graphs for mode=both

Connections made by `startRecording` in the mode=both branch.
`graphPlain` is the non-visualizing recorder: `tabSource.connect
(destination)`, `tabSource.connect(audioContext.destination)`,
`micSource.connect(destination)`.  `graphViz` is the visualizing one:
`tabSource.connect(merger)`, `micSource.connect(merger)`,
`merger.connect(destination)`, `tabSource.connect
(audioContext.destination)`, and `setupAnalyser` adds
`merger.connect(analyser)`. -/

def graphPlain : List (Node × Node) :=
  [(.tabSource, .destination), (.tabSource, .speaker), (.micSource, .destination)]

def graphViz : List (Node × Node) :=
  [(.tabSource, .merger), (.micSource, .merger), (.merger, .destination),
   (.tabSource, .speaker), (.merger, .analyser)]

/-- Audio flows from `a` to `b` along the connections in `E`. -/
inductive Flows (E : List (Node × Node)) : Node → Node → Prop where
  | refl (a : Node) : Flows E a a
  | tail {a b c : Node} : Flows E a b → (b, c) ∈ E → Flows E a c

/-! ### Stopping (`stopRecording`)

`stopRecording` embeds one invocation of the stop handler together with
the body of the 100 ms timeout it schedules (the timeout always fires).
The state carries the pieces of the component the handler touches plus
instrumentation: how many blobs were assembled, how many
`saveRecording` calls were made. -/

structure RecorderState where
  /-- `mediaRecorder.state !== 'inactive'` -/
  recorderActive : Bool
  /-- sizes of the chunks in `chunksRef.current` (never cleared by stop) -/
  chunkSizes : List Nat
  status : Status
  error : Option String
  /-- number of `new Blob(chunksRef.current, ...)` assemblies so far -/
  blobsAssembled : Nat
  /-- number of `saveRecording` calls so far -/
  saveCalls : Nat
  deriving DecidableEq, Repr

/-- Synchronous part of `stopRecording`: stop the recorder if active,
stop the tracks, close the audio context (none of which touches the
instrumented fields). -/
def stopSync (s : RecorderState) : RecorderState :=
  { s with recorderActive := false }

/-- Body of the scheduled timeout: assemble `new Blob(chunksRef.current)`
and, when its size is positive, call `saveRecording` (modelled as
succeeding) and set `status = stopped`; otherwise just set
`status = stopped`. -/
def stopDeferred (s : RecorderState) : RecorderState :=
  let blobSize := s.chunkSizes.sum
  if blobSize > 0 then
    { s with blobsAssembled := s.blobsAssembled + 1,
             saveCalls := s.saveCalls + 1, status := .stopped }
  else
    { s with blobsAssembled := s.blobsAssembled + 1, status := .stopped }

/-- One full `stopRecording` invocation (handler plus its timeout). -/
def stopRecording (s : RecorderState) : RecorderState :=
  stopDeferred (stopSync s)

/-- A recording-in-progress state with one 1024-byte chunk accumulated
and nothing saved yet. -/
def recordingState : RecorderState :=
  { recorderActive := true, chunkSizes := [1024], status := .recording,
    error := none, blobsAssembled := 0, saveCalls := 0 }

/-! ### Storage (`src/utils/storage.ts`) and the transcription failure
path (`handleProcess` in `src/recordings/Recordings.tsx`)

The IndexedDB object store keyed by `id` is modelled as a list of
records; keys are unique in the real store (`store.add` rejects
duplicates), and `putRecord` is IndexedDB `put`: replace the record with
the same key, or append.  Promise rejection is `Except.error`. -/

inductive TranscriptionStatus where
  | pending
  | processing
  | completed
  | error
  deriving DecidableEq, Repr

/-- The `Recording` interface of storage.ts.  The blob is carried as its
byte content. -/
structure Recording where
  id : String
  name : String
  blob : List Nat
  duration : Nat
  createdAt : Nat
  size : Nat
  transcription : Option String
  transcriptionStatus : Option TranscriptionStatus
  deriving DecidableEq, Repr

/-- `Partial<Recording>` as used by `updateRecording` callers: each field
optionally present (the `id` key is never part of an update in the
source). -/
structure RecordingUpdates where
  name : Option String := none
  blob : Option (List Nat) := none
  duration : Option Nat := none
  createdAt : Option Nat := none
  size : Option Nat := none
  transcription : Option String := none
  transcriptionStatus : Option TranscriptionStatus := none
  deriving DecidableEq, Repr

/-- The object spread `{ ...recording, ...updates }`. -/
def applyUpdates (r : Recording) (u : RecordingUpdates) : Recording :=
  { r with
    name := u.name.getD r.name
    blob := u.blob.getD r.blob
    duration := u.duration.getD r.duration
    createdAt := u.createdAt.getD r.createdAt
    size := u.size.getD r.size
    transcription := match u.transcription with
      | some t => some t
      | none => r.transcription
    transcriptionStatus := match u.transcriptionStatus with
      | some t => some t
      | none => r.transcriptionStatus }

/-- `getRecording`: an IndexedDB `get` on a missing key succeeds with
`undefined`, and the source resolves `request.result || null` — absence
is the success value `none`, never a rejection. -/
def getRecording (store : List Recording) (id : String) :
    Except String (Option Recording) :=
  .ok (store.find? (fun r => r.id == id))

/-- IndexedDB `store.put`: replace the record with the same key, or
append. -/
def putRecord : List Recording → Recording → List Recording
  | [], r => [r]
  | x :: xs, r => if x.id == r.id then r :: xs else x :: putRecord xs r

/-- `updateRecording`: read the record, throw `Recording not found` when
absent, otherwise put back the spread of the record with the updates. -/
def updateRecording (store : List Recording) (id : String)
    (updates : RecordingUpdates) : Except String (List Recording) :=
  match getRecording store id with
  | .error e => .error e
  | .ok none => .error "Recording not found"
  | .ok (some recording) => .ok (putRecord store (applyUpdates recording updates))

/-- The failure path of `handleProcess`: before the `try`, the record's
status is set to `processing` (a rejection there propagates to the
caller); the transcription request then fails (non-ok response or thrown
transport error) and the `catch` sets the status to `error`.  No other
update touches the store on this path. -/
def handleProcessFail (store : List Recording) (id : String) :
    Except String (List Recording) :=
  match updateRecording store id { transcriptionStatus := some .processing } with
  | .error e => .error e
  | .ok s1 => updateRecording s1 id { transcriptionStatus := some .error }

/-! ### Helper lemmas -/

/-- Audio flow stays inside any set of nodes closed under the
connection list. -/
theorem flows_closed_set {E : List (Node × Node)} {S : Node → Bool}
    (hE : ∀ p ∈ E, S p.1 = true → S p.2 = true) :
    ∀ {a b : Node}, Flows E a b → S a = true → S b = true := by
  intro a b h ha
  induction h with
  | refl => exact ha
  | tail _ hmem ih => exact hE _ hmem ih

/-- A band fully inside a constant snapshot sums to `len * c`. -/
theorem bandSum_replicate (n c start len : Nat) (h : start + len ≤ n) :
    bandSum (List.replicate n c) start len = len * c := by
  unfold bandSum
  rw [List.drop_replicate, List.take_replicate, List.sum_replicate,
    smul_eq_mul]
  congr 1
  omega

/-- `updateAudioLevels` on a constant 128-entry snapshot is a constant
vector. -/
theorem updateAudioLevels_replicate (c : Nat) :
    updateAudioLevels (List.replicate 128 c) =
      List.replicate 5 (mathMin 1 ((c : ℚ) / 180)) := by
  have hs : ∀ i : Nat, i < 5 →
      bandSum (List.replicate 128 c) (i * 25) 25 = 25 * c := by
    intro i hi
    exact bandSum_replicate 128 c (i * 25) 25 (by omega)
  have havg : ((25 * c : Nat) : ℚ) / (25 : ℚ) = (c : ℚ) := by
    push_cast
    ring_nf
  simp only [updateAudioLevels, NUM_BARS, List.length_replicate]
  norm_num [List.range_succ]
  rw [hs 0 (by norm_num), hs 1 (by norm_num), hs 2 (by norm_num),
    hs 3 (by norm_num), hs 4 (by norm_num), havg]
  simp [List.replicate]

/-- Every published level lies in `[0, 1]`. -/
theorem updateAudioLevels_mem_bounds (data : List Nat) :
    ∀ l ∈ updateAudioLevels data, 0 ≤ l ∧ l ≤ 1 := by
  intro l hl
  simp only [updateAudioLevels, List.mem_map, List.mem_range] at hl
  obtain ⟨i, -, rfl⟩ := hl
  set x : ℚ :=
    (bandSum data (i * (data.length / NUM_BARS)) (data.length / NUM_BARS) : ℚ) /
      (data.length / NUM_BARS : Nat) / 180 with hx
  have hx0 : 0 ≤ x := by
    rw [hx]
    positivity
  unfold mathMin
  split
  · exact ⟨zero_le_one, le_refl 1⟩
  · exact ⟨hx0, le_of_not_le (by assumption)⟩

/-- The records-update spread never changes the id. -/
theorem applyUpdates_id (r : Recording) (u : RecordingUpdates) :
    (applyUpdates r u).id = r.id := rfl

/-- Putting a record whose key is already the first match replaces that
match and nothing before it. -/
theorem find?_putRecord (s : List Recording) (id : String) (r r' : Recording)
    (h : s.find? (fun x => x.id == id) = some r) (h2 : r'.id = id) :
    (putRecord s r').find? (fun x => x.id == id) = some r' := by
  induction s with
  | nil => simp at h
  | cons x xs ih =>
    by_cases hx : x.id = id
    · have hr : x = r := by
        rw [List.find?_cons_of_pos _ (by simp [hx])] at h
        exact Option.some.inj h
      have hput : putRecord (x :: xs) r' = r' :: xs := by
        simp [putRecord, hx, h2]
      rw [hput, List.find?_cons_of_pos _ (by simp [h2])]
    · have hfind : xs.find? (fun y => y.id == id) = some r := by
        rwa [List.find?_cons_of_neg _ (by simp [hx])] at h
      have hput : putRecord (x :: xs) r' = x :: putRecord xs r' := by
        have : ¬ x.id = r'.id := by rw [h2]; exact hx
        simp [putRecord, this]
      rw [hput, List.find?_cons_of_neg _ (by simp [hx])]
      exact ih hfind

/-- Look a record up inside the success value of a storage operation
(`none` when the operation failed or the record is absent). -/
def resultLookup (res : Except String (List Recording)) (id : String) :
    Option Recording :=
  match res with
  | .error _ => none
  | .ok s => s.find? (fun x => x.id == id)

/-! ### Claim theorems -/

/-- C1: the claim says a second `stopRecording` invocation is a no-op
(exactly one assembled artifact, exactly one `saveRecording` call).  The
code has no guard on the stop transition: from a recording state with a
non-empty chunk, each invocation assembles a blob and calls
`saveRecording`, so two invocations save twice. -/
theorem stop_twice_saves_twice :
    (stopRecording recordingState).saveCalls = 1 ∧
    (stopRecording recordingState).blobsAssembled = 1 ∧
    (stopRecording (stopRecording recordingState)).saveCalls = 2 ∧
    (stopRecording (stopRecording recordingState)).blobsAssembled = 2 := by
  decide

/-- C2 counterexample: on parameter rejection the mount effect sets the
error but never moves `status` off `starting`, so an error is visible in
a non-stopped state. -/
theorem param_reject_error_with_status_starting :
    (runSession ⟨none, .ok, none⟩).error = some "Invalid parameters" ∧
    (runSession ⟨none, .ok, none⟩).status = .starting ∧
    (runSession ⟨none, .ok, none⟩).status ≠ .stopped := by
  decide

/-- C2 amended: on every path except parameter rejection, a set error
forces `status = stopped`; on parameter rejection the error is set while
`status` remains `starting`. -/
theorem error_forces_stopped_unless_param_reject :
    ∀ sc : Scenario, (runSession sc).error ≠ none →
      (runSession sc).status = .stopped ∨
        ((runSession sc).status = .starting ∧ sc.params = none) := by
  intro sc h
  rcases sc with ⟨p, st, sp⟩
  rcases sp with _ | o
  · cases p <;> cases st <;> simp_all [runSession]
  · cases o <;> cases p <;> cases st <;> simp_all [runSession]

/-- C2 witness: acquisition failure ends stopped with the error set. -/
theorem error_forces_stopped_witness :
    (runSession ⟨some ⟨"tab", "", 1⟩, .fail "denied", none⟩).status = .stopped ∨
      ((runSession ⟨some ⟨"tab", "", 1⟩, .fail "denied", none⟩).status = .starting ∧
        (⟨some ⟨"tab", "", 1⟩, .fail "denied", none⟩ : Scenario).params = none) :=
  error_forces_stopped_unless_param_reject _ (by decide)

/-- C3: the claim says every stream opened earlier in a failed start
attempt is torn down.  In a mode=both attempt where the tab stream was
acquired and the microphone request rejects, the catch only sets the
error and `status = stopped`: the tab stream's audio tracks are still
live. -/
theorem mic_failure_leaves_tab_audio_live :
    (startRecordingRun ⟨"both", "mic-1", 7⟩ .ok (.fail "Permission denied")).status =
        .stopped ∧
    (startRecordingRun ⟨"both", "mic-1", 7⟩ .ok (.fail "Permission denied")).error =
        some "Permission denied" ∧
    (startRecordingRun ⟨"both", "mic-1", 7⟩ .ok (.fail "Permission denied")).micLive =
        false ∧
    (startRecordingRun ⟨"both", "mic-1", 7⟩ .ok (.fail "Permission denied")).tabAudioLive =
        true := by
  decide

/-- C4 counterexample: a mode=both request with an empty deviceId and a
valid tabId does create a session, and a mic-only request with a device
but no tabId is rejected — both against the claimed iff. -/
theorem getParams_claim_counterexample :
    getParams (some "both") (some "") (some "1") =
      some { mode := "both", deviceId := "", tabId := 1 } ∧
    getParams (some "mic") (some "mic-device") none = none := by
  decide

/-- C4 amended: a session is created iff the mode string is non-empty and
the tabId parses to a non-zero number (for every mode); the deviceId is
never inspected by the parameter check. -/
theorem getParams_characterization :
    ∀ modeQ deviceQ tabQ : Option String,
      ((getParams modeQ deviceQ tabQ).isSome ↔
        (modeQ.getD "" ≠ "" ∧ ∃ n : Int, parsedTabId tabQ = some n ∧ n ≠ 0)) ∧
      ∀ d d' : String,
        (getParams modeQ (some d) tabQ).isSome =
          (getParams modeQ (some d') tabQ).isSome := by
  intro modeQ deviceQ tabQ
  constructor
  · cases hpt : parsedTabId tabQ with
    | none => simp [getParams, hpt]
    | some n =>
      by_cases hm : modeQ.getD "" = "" <;> by_cases hn : n = 0 <;>
        simp [getParams, hpt, hm, hn]
  · intro d d'
    by_cases hcond :
        modeQ.getD "" = "" ∨ parsedTabId tabQ = none ∨ parsedTabId tabQ = some 0 <;>
      simp [getParams, hcond]

/-- C4 witness: a mic-only request with a non-zero tabId is accepted. -/
theorem getParams_characterization_witness :
    (getParams (some "mic") none (some "42")).isSome :=
  ((getParams_characterization (some "mic") none (some "42")).1).mpr
    ⟨by decide, 42, by decide, by decide⟩

/-- C5 counterexample: the formatter pads minutes to two digits, so a
65-second session displays "01:05", not "1:05". -/
theorem formatDuration_65_counterexample :
    formatDuration 65 = "01:05" ∧ formatDuration 65 ≠ "1:05" := by
  decide

/-- C5 amended: the elapsed display recomputed from `now - startedAt`
after 65 wall-clock seconds is 65 seconds, rendered "01:05". -/
theorem elapsed_display_65s :
    ∀ startedAt : Nat,
      elapsedSeconds (startedAt + 65000) startedAt = 65 ∧
      formatDuration (elapsedSeconds (startedAt + 65000) startedAt) = "01:05" := by
  intro t
  have h : elapsedSeconds (t + 65000) t = 65 := by
    unfold elapsedSeconds
    omega
  exact ⟨h, by rw [h]; decide⟩

/-- C5 witness at a concrete start time. -/
theorem elapsed_display_65s_witness :
    elapsedSeconds (5000 + 65000) 5000 = 65 ∧
    formatDuration (elapsedSeconds (5000 + 65000) 5000) = "01:05" :=
  elapsed_display_65s 5000

/-- C6: for every 128-entry byte snapshot the published level vector has
length 5 with every entry in [0,1]; an all-zero snapshot yields the zero
vector and an all-255 snapshot saturates every entry at 1. -/
theorem level_vector_spec :
    (∀ data : List Nat, data.length = frequencyBinCount →
        (∀ x ∈ data, x ≤ 255) →
        (updateAudioLevels data).length = 5 ∧
          ∀ l ∈ updateAudioLevels data, 0 ≤ l ∧ l ≤ 1) ∧
    updateAudioLevels (List.replicate frequencyBinCount 0) =
      List.replicate 5 0 ∧
    updateAudioLevels (List.replicate frequencyBinCount 255) =
      List.replicate 5 1 := by
  refine ⟨fun data _ _ => ⟨?_, updateAudioLevels_mem_bounds data⟩, ?_, ?_⟩
  · simp [updateAudioLevels, NUM_BARS]
  · show updateAudioLevels (List.replicate 128 0) = List.replicate 5 0
    rw [updateAudioLevels_replicate]
    norm_num [mathMin]
  · show updateAudioLevels (List.replicate 128 255) = List.replicate 5 1
    rw [updateAudioLevels_replicate]
    norm_num [mathMin]

/-- C6 witness on a concrete snapshot. -/
theorem level_vector_spec_witness :
    (updateAudioLevels (List.replicate 128 7)).length = 5 ∧
      ∀ l ∈ updateAudioLevels (List.replicate 128 7), 0 ≤ l ∧ l ≤ 1 :=
  level_vector_spec.1 (List.replicate 128 7) (by simp [frequencyBinCount])
    (by intro x hx; rw [List.eq_of_mem_replicate hx]; norm_num)

/-- C7: a mode=both session with an empty (or absent, which parses to
empty) deviceId runs exactly the tab-only path — identical result for
every microphone outcome, no microphone request, tab stream as encoder
input, speaker monitoring wired, and the session reaches recording when
the tab acquisition succeeds. -/
theorem both_without_device_is_tab_only :
    ∀ (tabId : Int) (tabOut micOut micOut' : StartOutcome),
      startRecordingRun ⟨"both", "", tabId⟩ tabOut micOut =
        startRecordingRun ⟨"tab", "", tabId⟩ tabOut micOut' ∧
      (startRecordingRun ⟨"both", "", tabId⟩ tabOut micOut).micAttempted = false ∧
      (tabOut = .ok →
        (startRecordingRun ⟨"both", "", tabId⟩ tabOut micOut).encoderInput =
            some .tabStream ∧
        (startRecordingRun ⟨"both", "", tabId⟩ tabOut micOut).speakerWiredFromTab =
            true ∧
        (startRecordingRun ⟨"both", "", tabId⟩ tabOut micOut).status = .recording) := by
  intro tabId tabOut micOut micOut'
  cases tabOut <;> simp [startRecordingRun]

/-- C7 witness: concrete mode=both session without a device id. -/
theorem both_without_device_witness :
    (startRecordingRun ⟨"both", "", 1⟩ .ok .ok).encoderInput = some .tabStream ∧
    (startRecordingRun ⟨"both", "", 1⟩ .ok .ok).speakerWiredFromTab = true ∧
    (startRecordingRun ⟨"both", "", 1⟩ .ok .ok).status = .recording :=
  (both_without_device_is_tab_only 1 .ok .ok .ok).2.2 rfl

/-- C8: in both mode=both mixing graphs (plain and visualizing recorder)
no audio flows from the microphone source to the local speakers, while
the tab source flows both to the speakers and to the encoder destination,
and the microphone flows to the encoder destination. -/
theorem mixing_graph_no_mic_feedback :
    (∀ b : Node, Flows graphViz .micSource b → b ≠ .speaker) ∧
    Flows graphViz .tabSource .speaker ∧
    Flows graphViz .tabSource .destination ∧
    Flows graphViz .micSource .destination ∧
    (∀ b : Node, Flows graphPlain .micSource b → b ≠ .speaker) ∧
    Flows graphPlain .tabSource .speaker ∧
    Flows graphPlain .tabSource .destination ∧
    Flows graphPlain .micSource .destination := by
  refine ⟨?_, ?_, ?_, ?_, ?_, ?_, ?_, ?_⟩
  · intro b hfl heq
    subst heq
    have hS := flows_closed_set (E := graphViz)
      (S := fun n => match n with
        | .micSource => true
        | .merger => true
        | .destination => true
        | .analyser => true
        | _ => false)
      (by decide) hfl rfl
    simp at hS
  · exact .tail (.refl _) (by decide)
  · exact .tail (.tail (.refl _)
      (by decide : (Node.tabSource, Node.merger) ∈ graphViz))
      (by decide : (Node.merger, Node.destination) ∈ graphViz)
  · exact .tail (.tail (.refl _)
      (by decide : (Node.micSource, Node.merger) ∈ graphViz))
      (by decide : (Node.merger, Node.destination) ∈ graphViz)
  · intro b hfl heq
    subst heq
    have hS := flows_closed_set (E := graphPlain)
      (S := fun n => match n with
        | .micSource => true
        | .destination => true
        | _ => false)
      (by decide) hfl rfl
    simp at hS
  · exact .tail (.refl _) (by decide)
  · exact .tail (.refl _) (by decide)
  · exact .tail (.refl _) (by decide)

/-- C8 witness: the microphone's flow into the destination indeed never
ends at the speakers. -/
theorem mixing_graph_no_mic_feedback_witness :
    Node.destination ≠ Node.speaker :=
  mixing_graph_no_mic_feedback.1 .destination
    (.tail (.tail (.refl _)
      (by decide : (Node.micSource, Node.merger) ∈ graphViz))
      (by decide : (Node.merger, Node.destination) ∈ graphViz))

/-- C9: when a transcription attempt fails, the record ends with
`transcriptionStatus = error` and every other field — the stored
transcription text included — unchanged. -/
theorem transcription_failure_frame (store : List Recording) (id : String)
    (r : Recording) (h : store.find? (fun x => x.id == id) = some r) :
    resultLookup (handleProcessFail store id) id =
      some { r with transcriptionStatus := some TranscriptionStatus.error } := by
  have hid : r.id = id := by
    have hp := List.find?_some h
    simpa using hp
  have hida : (applyUpdates r { transcriptionStatus := some .processing }).id = id :=
    (applyUpdates_id r _).trans hid
  have hfind1 :
      (putRecord store
            (applyUpdates r { transcriptionStatus := some .processing })).find?
          (fun x => x.id == id) =
        some (applyUpdates r { transcriptionStatus := some .processing }) :=
    find?_putRecord store id r _ h hida
  have h1 : updateRecording store id { transcriptionStatus := some .processing } =
      .ok (putRecord store (applyUpdates r { transcriptionStatus := some .processing })) := by
    unfold updateRecording getRecording
    rw [h]
  have h2 : updateRecording
        (putRecord store (applyUpdates r { transcriptionStatus := some .processing })) id
        { transcriptionStatus := some .error } =
      .ok (putRecord
            (putRecord store (applyUpdates r { transcriptionStatus := some .processing }))
            (applyUpdates (applyUpdates r { transcriptionStatus := some .processing })
              { transcriptionStatus := some .error })) := by
    unfold updateRecording getRecording
    rw [hfind1]
  have hfind2 := find?_putRecord
    (putRecord store (applyUpdates r { transcriptionStatus := some .processing })) id
    (applyUpdates r { transcriptionStatus := some .processing })
    (applyUpdates (applyUpdates r { transcriptionStatus := some .processing })
      { transcriptionStatus := some .error })
    hfind1 ((applyUpdates_id _ _).trans hida)
  have hcomp : applyUpdates (applyUpdates r { transcriptionStatus := some .processing })
      { transcriptionStatus := some .error } =
      { r with transcriptionStatus := some TranscriptionStatus.error } := rfl
  rw [hcomp] at hfind2
  simp only [handleProcessFail, h1, h2, resultLookup, hcomp, hfind2]

/-- A concrete stored recording used to instantiate the C9 theorem. -/
def sampleRecording : Recording :=
  { id := "rec-1", name := "Meeting", blob := [1, 2, 3], duration := 65,
    createdAt := 1000, size := 3, transcription := some "old text",
    transcriptionStatus := some TranscriptionStatus.completed }

/-- C9 witness: a completed record with stored text keeps everything but
the status after a failed re-transcription. -/
theorem transcription_failure_frame_witness :
    resultLookup (handleProcessFail [sampleRecording] "rec-1") "rec-1" =
      some { sampleRecording with
             transcriptionStatus := some TranscriptionStatus.error } :=
  transcription_failure_frame [sampleRecording] "rec-1" sampleRecording (by decide)

/-- C10: `getRecording` on an absent id resolves successfully to `none`
(unlike `updateRecording`, which rejects with `Recording not found`), and
on a present id resolves to the stored record unchanged. -/
theorem getRecording_absent_null :
    ∀ (store : List Recording) (id : String),
      (store.find? (fun x => x.id == id) = none →
        getRecording store id = .ok none ∧
        ∀ u : RecordingUpdates,
          updateRecording store id u = .error "Recording not found") ∧
      ∀ r : Recording, store.find? (fun x => x.id == id) = some r →
        getRecording store id = .ok (some r) := by
  intro store id
  refine ⟨fun h => ⟨?_, fun u => ?_⟩, fun r h => ?_⟩
  · unfold getRecording
    rw [h]
  · unfold updateRecording getRecording
    rw [h]
  · unfold getRecording
    rw [h]

/-- C10 witness on the empty store. -/
theorem getRecording_absent_null_witness :
    getRecording [] "missing" = .ok none ∧
    updateRecording [] "missing" {} = .error "Recording not found" :=
  ⟨((getRecording_absent_null [] "missing").1 rfl).1,
   ((getRecording_absent_null [] "missing").1 rfl).2 {}⟩

end Echoes
